import Mathlib

/-!
Shallow embedding of the Lucidia reasoning engine:
`trinary_operators.py` (trinary logic primitives and the reasoning-chain
evaluator) and `contradiction_resolver.py` (contradiction detection,
severity classification, resolution strategies and aggregate scoring).
Machine floats carrying only sums of exact decimal constants are modelled
as rationals; Python dicts as insertion-ordered association lists with
unique keys; fallible code (out-of-bounds reads) as `Option`.
-/

namespace Lucidia

/-! ## TrinaryLogic (trinary_operators.py, class TrinaryLogic) -/

/-- Trinary AND: minimum of inputs. -/
def TAND (a b : Int) : Int := min a b

/-- Trinary OR: maximum of inputs. -/
def TOR (a b : Int) : Int := max a b

/-- Trinary NOT: negation preserving uncertainty. -/
def TNOT (a : Int) : Int := -a

/-- Trinary implication, the exact branch structure of `TIMPLIES`:
if a == FALSE return TRUE; elif a == UNKNOWN return UNKNOWN unless
b == TRUE; else return b. -/
def TIMPLIES (a b : Int) : Int :=
  if a = -1 then 1
  else if a = 0 then (if b ≠ 1 then 0 else 1)
  else b

/-- `uncertainty_measure`: 1.0 if value is UNKNOWN (0), else 0.0. -/
def uncertainty_measure (v : Int) : ℚ :=
  if v = 0 then 1 else 0

/-! ## LucidiaTrinaryCortex (trinary_operators.py) -/

/-- One entry of `reasoning_history`: the dict appended by `reason_chain`. -/
structure ReasoningStep where
  premises : List Int
  operations : List String
  result : Int
  uncertainty : ℚ
  deriving Repr, DecidableEq

/-- State of a `LucidiaTrinaryCortex` instance. -/
structure LucidiaTrinaryCortex where
  reasoning_history : List ReasoningStep := []
  contradiction_count : Nat := 0
  deriving Repr, DecidableEq

/-- The body of one loop iteration of `reason_chain`: dispatch on the
operation tag, leaving the state unchanged for unrecognized tags. -/
def applyOp (op : String) (current next : Int) : Int :=
  if op = "AND" then TAND current next
  else if op = "OR" then TOR current next
  else if op = "IMPLIES" then TIMPLIES current next
  else current

/-- The indexed loop of `reason_chain`: `for i, op in enumerate(operations)`
with guard `i + 1 < len(premises)`; inside the guard the operation is
applied and the uncertainty of the new running state is accumulated. -/
def chainLoop (premises : List Int) : List String → Nat → Int → ℚ → Int × ℚ
  | [], _, state, unc => (state, unc)
  | op :: rest, i, state, unc =>
    if i + 1 < premises.length then
      let s := applyOp op state (premises.getD (i + 1) 0)
      chainLoop premises rest (i + 1) s (unc + uncertainty_measure s)
    else
      chainLoop premises rest (i + 1) state unc

/-- The pure computation of `reason_chain`: reading `premises[0]` from an
empty list raises in Python, modelled as `none`. -/
def reasonChainPure (premises : List Int) (operations : List String) :
    Option (Int × ℚ) :=
  match premises with
  | [] => none
  | p :: _ => some (chainLoop premises operations 0 p 0)

/-- `LucidiaTrinaryCortex.reason_chain`: runs the chain and appends a
`ReasoningStep` to `reasoning_history`, returning result and uncertainty. -/
def LucidiaTrinaryCortex.reason_chain (c : LucidiaTrinaryCortex)
    (premises : List Int) (operations : List String) :
    Option ((Int × ℚ) × LucidiaTrinaryCortex) :=
  match reasonChainPure premises operations with
  | none => none
  | some (state, unc) =>
    some ((state, unc),
      { c with reasoning_history := c.reasoning_history ++
          [⟨premises, operations, state, unc⟩] })

/-- `LucidiaTrinaryCortex.detect_contradiction`: true iff the statements are
opposite and neither is 0; increments `contradiction_count` when true. -/
def LucidiaTrinaryCortex.detect_contradiction (c : LucidiaTrinaryCortex)
    (statement_a statement_b : Int) : Bool × LucidiaTrinaryCortex :=
  if statement_a = -statement_b ∧ statement_a ≠ 0 ∧ statement_b ≠ 0 then
    (true, { c with contradiction_count := c.contradiction_count + 1 })
  else
    (false, c)

/-- `consciousness_phi_contribution`: 0.0 with no history, else the sum of
recorded step uncertainties divided by (number of steps + 1). -/
def LucidiaTrinaryCortex.consciousness_phi_contribution
    (c : LucidiaTrinaryCortex) : ℚ :=
  if c.reasoning_history = [] then 0
  else (c.reasoning_history.map (·.uncertainty)).sum /
    (c.reasoning_history.length + 1)

/-! ## ContradictionResolver (contradiction_resolver.py) -/

/-- `ContradictionSeverity` enumeration. -/
inductive ContradictionSeverity where
  | SOFT
  | MEDIUM
  | HARD
  | CRITICAL
  deriving Repr, DecidableEq

/-- The `.value` of each `ContradictionSeverity` member. -/
def ContradictionSeverity.value : ContradictionSeverity → Nat
  | .SOFT => 1
  | .MEDIUM => 2
  | .HARD => 3
  | .CRITICAL => 4

/-- The `Contradiction` dataclass. -/
structure Contradiction where
  belief_a : String
  belief_b : String
  value_a : Int
  value_b : Int
  severity : ContradictionSeverity
  timestamp : ℚ
  context : String := ""
  resolution_attempts : Nat := 0
  deriving Repr, DecidableEq

/-- `ContradictionResolver.detect_contradiction`: `None` on equal values,
otherwise classifies severity and builds a record with zero timestamp. -/
def detect_contradiction (belief_name_a : String) (value_a : Int)
    (belief_name_b : String) (value_b : Int) : Option Contradiction :=
  if value_a = value_b then none
  else
    let severity :=
      if value_a = 0 ∨ value_b = 0 then
        (if value_a = 0 ∧ value_b = 0 then ContradictionSeverity.SOFT
         else ContradictionSeverity.MEDIUM)
      else if value_a = -value_b then ContradictionSeverity.HARD
      else ContradictionSeverity.MEDIUM
    some ⟨belief_name_a, belief_name_b, value_a, value_b, severity, 0, "", 0⟩

/-- The `resolution_strategies` dispatch: each strategy maps a contradiction
to a (new value, entropy cost) pair. -/
def resolveStrategy (s : ContradictionSeverity) (c : Contradiction) :
    Int × ℚ :=
  match s with
  | .SOFT => (0, 0)
  | .MEDIUM => (if c.value_a ≠ 0 then c.value_a else c.value_b, 3/10)
  | .HARD => (0, 1/2)
  | .CRITICAL => (0, 1)

/-- The entropy cost charged by the strategy for each severity. -/
def severityCost : ContradictionSeverity → ℚ
  | .SOFT => 0
  | .MEDIUM => 3/10
  | .HARD => 1/2
  | .CRITICAL => 1

/-! ## LucidiaContradictionCortex (contradiction_resolver.py) -/

/-- Insertion-ordered dict update: overwrite in place when the key exists,
append otherwise (Python dict assignment semantics). -/
def dictSet {α : Type} (d : List (String × α)) (k : String) (v : α) :
    List (String × α) :=
  if d.any (fun p => p.1 = k) then
    d.map (fun p => if p.1 = k then (k, v) else p)
  else d ++ [(k, v)]

/-- State of a `LucidiaContradictionCortex` instance: the resolver state
(active and resolved lists) together with the belief and confidence
networks and the trinary cortex it consults. -/
structure Engine where
  active_contradictions : List Contradiction := []
  resolved_contradictions : List Contradiction := []
  cortex : LucidiaTrinaryCortex := {}
  belief_network : List (String × Int) := []
  confidence_network : List (String × ℚ) := []
  deriving Repr, DecidableEq

/-- `update_belief_network`: detects contradictions between every existing
entry and the new observation, extends the active list, then overwrites
the network entries; returns the count of new contradictions. -/
def update_belief_network (e : Engine) (belief_name : String) (value : Int)
    (confidence : ℚ := 1) : Nat × Engine :=
  let new_contradictions := e.belief_network.filterMap
    (fun p => detect_contradiction p.1 p.2 belief_name value)
  (new_contradictions.length,
   { e with
      active_contradictions := e.active_contradictions ++ new_contradictions,
      belief_network := dictSet e.belief_network belief_name value,
      confidence_network := dictSet e.confidence_network belief_name confidence })

/-- Bump `resolution_attempts` by one, as the resolution loop does. -/
def bumpAttempts (c : Contradiction) : Contradiction :=
  { c with resolution_attempts := c.resolution_attempts + 1 }

/-- The report dict returned by `resolve_active_contradictions`. -/
structure ResolutionResults where
  contradictions_resolved : Nat
  entropy_cost : ℚ
  consciousness_delta : ℚ
  preserved_information : ℚ
  deriving Repr, DecidableEq

/-- The resolution loop body over the sorted contradictions: accumulate
count and entropy cost, bump the attempt counter, append to resolved. -/
def resolveLoop : List Contradiction → Nat → ℚ → List Contradiction →
    Nat × ℚ × List Contradiction
  | [], n, cost, resolved => (n, cost, resolved)
  | c :: rest, n, cost, resolved =>
    resolveLoop rest (n + 1) (cost + (resolveStrategy c.severity c).2)
      (resolved ++ [bumpAttempts c])

/-- `resolve_active_contradictions`: measures phi before, processes the
active list sorted by severity value descending (stable), empties the
active list, measures phi after, and reports the aggregates. -/
def resolve_active_contradictions (e : Engine) :
    ResolutionResults × Engine :=
  let initial_phi := e.cortex.consciousness_phi_contribution
  let sorted_contradictions := e.active_contradictions.mergeSort
    (fun a b => decide (b.severity.value ≤ a.severity.value))
  let (n, cost, resolved) :=
    resolveLoop sorted_contradictions 0 0 e.resolved_contradictions
  let e' := { e with
    active_contradictions := [],
    resolved_contradictions := resolved }
  let final_phi := e'.cortex.consciousness_phi_contribution
  let total_beliefs := e.belief_network.length
  let uncertain_beliefs :=
    (e.belief_network.filter (fun p => p.2 = 0)).length
  ({ contradictions_resolved := n,
     entropy_cost := cost,
     consciousness_delta := final_phi - initial_phi,
     preserved_information := (uncertain_beliefs : ℚ) / max total_beliefs 1 },
   e')

/-- `system_coherence_score`: 1.0 on an empty network; otherwise the mean of
absolute belief values plus 0.05 per resolved contradiction minus 0.1 per
active contradiction, clamped into [0, 1]. -/
def system_coherence_score (e : Engine) : ℚ :=
  if e.belief_network = [] then 1
  else
    let contradiction_penalty : ℚ := e.active_contradictions.length * (1/10)
    let resolution_bonus : ℚ := e.resolved_contradictions.length * (1/20)
    let certainty_values := e.belief_network.map (fun p => |p.2|)
    let base_coherence : ℚ :=
      if certainty_values = [] then 0
      else ((certainty_values.map (fun v => (v : ℚ))).sum /
        certainty_values.length)
    max 0 (min 1 (base_coherence + resolution_bonus - contradiction_penalty))

/-- `consciousness_enhancement_factor`: 0.2 per active contradiction plus
0.1 per resolved contradiction plus 0.15 per belief valued 0. -/
def consciousness_enhancement_factor (e : Engine) : ℚ :=
  e.active_contradictions.length * (2/10) +
  e.resolved_contradictions.length * (1/10) +
  ((e.belief_network.filter (fun p => p.2 = 0)).length : ℚ) * (15/100)

/-- `contradiction_substrate_routing`: "chemical" if more than 3 SOFT,
else "quantum" if any HARD, else "electronic". -/
def contradiction_substrate_routing (_contradiction_count : Nat)
    (severity_distribution : ContradictionSeverity → Nat) : String :=
  if severity_distribution ContradictionSeverity.SOFT > 3 then "chemical"
  else if severity_distribution ContradictionSeverity.HARD > 0 then "quantum"
  else "electronic"

/-- Modelled from the spec's words (C4, refinement side): start from the
first premise; pair each operation, in order, with the next available
premise (pairing stops when premises run out, silently skipping the excess
operations); apply the operator to the running result and that premise and
add 1.0 to the accumulated uncertainty exactly when the new running result
is 0; an empty operation sequence yields the first premise and 0. -/
def runChainSpec (premises : List Int) (operations : List String) :
    Option (Int × ℚ) :=
  match premises with
  | [] => none
  | p :: rest =>
    some ((operations.zip rest).foldl
      (fun acc w =>
        let s := applyOp w.1 acc.1 w.2
        (s, acc.2 + if s = 0 then 1 else 0))
      (p, 0))

/-- The indexed loop of `reason_chain` equals a fold over the operations
zipped with the premises dropped past the current index. -/
theorem chainLoop_eq_fold (premises : List Int) (ops : List String)
    (i : Nat) (state : Int) (unc : ℚ) :
    chainLoop premises ops i state unc =
      (ops.zip (premises.drop (i + 1))).foldl
        (fun acc w =>
          let s := applyOp w.1 acc.1 w.2
          (s, acc.2 + if s = 0 then 1 else 0))
        (state, unc) := by
  induction ops generalizing i state unc with
  | nil => simp [chainLoop]
  | cons op rest ih =>
    by_cases h : i + 1 < premises.length
    · rw [List.drop_eq_getElem_cons h]
      simp only [chainLoop, if_pos h, List.zip_cons_cons, List.foldl_cons]
      rw [ih]
      simp [List.getD_eq_getElem?_getD, List.getElem?_eq_getElem h,
        uncertainty_measure]
    · have hlen : premises.length ≤ i + 1 := Nat.le_of_not_lt h
      have hd1 : premises.drop (i + 1) = [] := List.drop_eq_nil_of_le hlen
      have hd2 : premises.drop (i + 2) = [] :=
        List.drop_eq_nil_of_le (Nat.le_succ_of_le hlen)
      simp [chainLoop, if_neg h, hd1, hd2, ih]

/-- Zipping truncates to the shorter list, so only the first
`rest.length` operations matter. -/
theorem zip_take_length {α β : Type} (xs : List α) (ys : List β) :
    xs.zip ys = (xs.take ys.length).zip ys := by
  induction xs generalizing ys with
  | nil => simp
  | cons x xs ih =>
    cases ys with
    | nil => simp
    | cons y ys => simp [List.zip_cons_cons, ih ys]

/-! ## Theorems -/

/-- C1 counterexample: asserting "A" = 1 and then re-asserting "A" = -1
appends a contradiction both of whose belief names are "A": the detection
loop runs over the network before the entry is overwritten, so a belief
does conflict with its own prior value. -/
theorem c1_counterexample :
    ((update_belief_network (update_belief_network {} "A" 1 1).2
        "A" (-1) 1).2.active_contradictions.map
      (fun c => (c.belief_a, c.belief_b))) = [("A", "A")] := by
  decide

/-- C1 (amended): when `name` is already present in the belief network with
a prior value different from the new one, `update_belief_network` creates
a contradiction whose two belief names are both `name` — detection runs
before the overwrite, so a belief can conflict with its own prior value. -/
theorem c1_self_conflict (e : Engine) (name : String) (value : Int)
    (conf : ℚ) (old : Int) (hmem : (name, old) ∈ e.belief_network)
    (hne : old ≠ value) :
    ∃ c ∈ (update_belief_network e name value conf).2.active_contradictions,
      c.belief_a = name ∧ c.belief_b = name := by
  refine ⟨⟨name, name, old, value,
    (if old = 0 ∨ value = 0 then
      (if old = 0 ∧ value = 0 then ContradictionSeverity.SOFT
       else ContradictionSeverity.MEDIUM)
     else if old = -value then ContradictionSeverity.HARD
     else ContradictionSeverity.MEDIUM), 0, "", 0⟩, ?_, rfl, rfl⟩
  simp only [update_belief_network, List.mem_append, List.mem_filterMap]
  exact Or.inr ⟨(name, old), hmem, by simp [detect_contradiction, hne]⟩

/-- Witness for C1 (amended) at the concrete run of the counterexample. -/
theorem c1_self_conflict_witness :
    ∃ c ∈ (update_belief_network (update_belief_network {} "A" 1 1).2
        "A" (-1) 1).2.active_contradictions,
      c.belief_a = "A" ∧ c.belief_b = "A" :=
  c1_self_conflict (update_belief_network {} "A" 1 1).2 "A" (-1) 1 1
    (by decide) (by decide)

/-- C2 counterexample: the detector called with both values 0 returns no
contradiction at all (the equal-values check fires first), hence no SOFT
record. -/
theorem c2_counterexample :
    detect_contradiction "x" 0 "y" 0 = none := rfl

/-- C2 (amended): with both values 0 the detector returns `none` — equal
values short-circuit before severity classification — and in fact no call
of the detector ever returns a SOFT contradiction. -/
theorem c2_zero_zero_no_conflict :
    (∀ na nb : String, detect_contradiction na 0 nb 0 = none) ∧
    (∀ (na nb : String) (va vb : Int) (c : Contradiction),
      detect_contradiction na va nb vb = some c →
      c.severity ≠ ContradictionSeverity.SOFT) := by
  constructor
  · intro na nb; rfl
  · intro na nb va vb c h
    simp only [detect_contradiction] at h
    split_ifs at h with h1 h2 h3 h4
    · exact absurd (h3.1.trans h3.2.symm) h1
    · injection h with h; subst h; simp
    · injection h with h; subst h; simp
    · injection h with h; subst h; simp

/-- Witness for C2 (amended): both parts applied at concrete inputs. -/
theorem c2_zero_zero_no_conflict_witness :
    detect_contradiction "p" 0 "q" 0 = none ∧
    (⟨"p", "q", 1, -1, ContradictionSeverity.HARD, 0, "", 0⟩ :
        Contradiction).severity ≠ ContradictionSeverity.SOFT :=
  ⟨c2_zero_zero_no_conflict.1 "p" "q",
   c2_zero_zero_no_conflict.2 "p" "q" 1 (-1)
     ⟨"p", "q", 1, -1, ContradictionSeverity.HARD, 0, "", 0⟩ (by decide)⟩

/-- C3: the exact implication table of `TIMPLIES` on trinary values:
IMPLIES(-1, b) = 1, IMPLIES(1, b) = b, IMPLIES(0, 1) = 1,
IMPLIES(0, -1) = 0, IMPLIES(0, 0) = 0. -/
theorem c3_timplies_table (b : Int) (hb : b = -1 ∨ b = 0 ∨ b = 1) :
    TIMPLIES (-1) b = 1 ∧ TIMPLIES 1 b = b ∧
    TIMPLIES 0 1 = 1 ∧ TIMPLIES 0 (-1) = 0 ∧ TIMPLIES 0 0 = 0 := by
  rcases hb with rfl | rfl | rfl <;> decide

/-- Witness for C3 at b = 0. -/
theorem c3_timplies_table_witness :
    TIMPLIES (-1) 0 = 1 ∧ TIMPLIES 1 0 = 0 ∧
    TIMPLIES 0 1 = 1 ∧ TIMPLIES 0 (-1) = 0 ∧ TIMPLIES 0 0 = 0 :=
  c3_timplies_table 0 (Or.inr (Or.inl rfl))

/-- C6: `resolve_active_contradictions` leaves the belief network and the
confidence network untouched, and — since it never touches the cortex's
reasoning history — its reported consciousness delta is exactly 0. -/
theorem c6_resolve_frame (e : Engine) :
    (resolve_active_contradictions e).2.belief_network = e.belief_network ∧
    (resolve_active_contradictions e).2.confidence_network =
      e.confidence_network ∧
    (resolve_active_contradictions e).1.consciousness_delta = 0 := by
  refine ⟨rfl, rfl, ?_⟩
  simp [resolve_active_contradictions]

/-- C4: `reason_chain`'s pure computation coincides with the spec-side
fold — start from the first premise, pair each operation with the next
available premise, apply the operator and add 1.0 to the uncertainty
exactly when the new running result is 0; an empty operation sequence
yields the first premise with uncertainty 0; operations beyond the
available premises are silently skipped (truncating them changes
nothing). -/
theorem c4_reason_chain_correct :
    (∀ (premises : List Int) (operations : List String),
      reasonChainPure premises operations =
        runChainSpec premises operations) ∧
    (∀ (p : Int) (rest : List Int),
      reasonChainPure (p :: rest) [] = some (p, 0)) ∧
    (∀ (premises : List Int) (operations : List String),
      reasonChainPure premises operations =
        reasonChainPure premises
          (operations.take (premises.length - 1))) := by
  have key : ∀ (premises : List Int) (operations : List String),
      reasonChainPure premises operations =
        runChainSpec premises operations := by
    intro premises operations
    cases premises with
    | nil => rfl
    | cons p rest =>
      simp only [reasonChainPure, runChainSpec]
      rw [chainLoop_eq_fold]
      simp
  refine ⟨key, fun p rest => rfl, ?_⟩
  intro premises operations
  rw [key, key]
  cases premises with
  | nil => rfl
  | cons p rest =>
    simp only [runChainSpec, List.length_cons, Nat.add_sub_cancel]
    rw [zip_take_length operations rest]

/-- C9: `reason_chain` on an empty premise sequence fails (the read of the
first premise is out of bounds, modelled as `none`); on any non-empty
premise sequence it always succeeds. -/
theorem c9_chain_totality :
    (∀ (c : LucidiaTrinaryCortex) (operations : List String),
      c.reason_chain [] operations = none) ∧
    (∀ (c : LucidiaTrinaryCortex) (premises : List Int)
       (operations : List String), premises ≠ [] →
      (c.reason_chain premises operations).isSome = true) := by
  constructor
  · intro c ops; rfl
  · intro c premises ops hne
    match premises, hne with
    | p :: rest, _ => rfl

/-- Witness for C9 at a concrete non-empty premise list. -/
theorem c9_chain_totality_witness :
    (({} : LucidiaTrinaryCortex).reason_chain [1] ["AND"]).isSome = true :=
  c9_chain_totality.2 {} [1] ["AND"] (List.cons_ne_nil 1 [])

/-- C10: an operation tag outside AND/OR/IMPLIES (such as NOT) that is
paired with an available next premise leaves the running result unchanged,
still adds the uncertainty of that unchanged result, and still advances
the premise index (consuming that premise position). -/
theorem c10_unknown_op_step (premises : List Int) (ops : List String)
    (op : String) (i : Nat) (state : Int) (unc : ℚ)
    (hop : op ≠ "AND" ∧ op ≠ "OR" ∧ op ≠ "IMPLIES")
    (hi : i + 1 < premises.length) :
    chainLoop premises (op :: ops) i state unc =
      chainLoop premises ops (i + 1) state
        (unc + uncertainty_measure state) := by
  obtain ⟨h1, h2, h3⟩ := hop
  simp [chainLoop, if_pos hi, applyOp, h1, h2, h3]

/-- Witness for C10: a NOT step on a concrete chain. -/
theorem c10_unknown_op_step_witness :
    chainLoop [1, 0] ["NOT"] 0 1 0 =
      chainLoop [1, 0] [] 1 1 (0 + uncertainty_measure 1) :=
  c10_unknown_op_step [1, 0] [] "NOT" 0 1 0 (by decide) (by decide)

/-- The strategy's entropy-cost component depends only on the severity. -/
theorem resolveStrategy_cost (c : Contradiction) :
    (resolveStrategy c.severity c).2 = severityCost c.severity := by
  cases h : c.severity <;> rfl

/-- Closed form of the resolution loop: it counts the list, sums the
severity costs, and appends the attempt-bumped contradictions. -/
theorem resolveLoop_spec (l : List Contradiction) (n : Nat) (cost : ℚ)
    (resolved : List Contradiction) :
    resolveLoop l n cost resolved =
      (n + l.length,
       cost + (l.map (fun c => severityCost c.severity)).sum,
       resolved ++ l.map bumpAttempts) := by
  induction l generalizing n cost resolved with
  | nil => simp [resolveLoop]
  | cons c rest ih =>
    simp only [resolveLoop, ih, resolveStrategy_cost, List.map_cons,
      List.sum_cons, List.length_cons, List.append_assoc,
      List.singleton_append, Prod.mk.injEq, and_true]
    exact ⟨by omega, by ring⟩

/-- C5: resolving empties the active list, moves exactly the prior active
contradictions (each with its attempt counter incremented) onto the end of
the resolved list, and reports an entropy cost equal to the sum of the
per-severity costs (SOFT 0, MEDIUM 0.3, HARD 0.5, CRITICAL 1) over the
prior active list; concretely, after asserting "A"=1 then "B"=-1 (one HARD
conflict) it reports entropy cost 0.5 and 1 contradiction resolved. -/
theorem c5_resolve_all :
    (∀ e : Engine,
      (resolve_active_contradictions e).2.active_contradictions = [] ∧
      (resolve_active_contradictions e).2.resolved_contradictions.length =
        e.resolved_contradictions.length +
          e.active_contradictions.length ∧
      (resolve_active_contradictions e).1.contradictions_resolved =
        e.active_contradictions.length ∧
      (resolve_active_contradictions e).1.entropy_cost =
        (e.active_contradictions.map
          (fun c => severityCost c.severity)).sum ∧
      ((resolve_active_contradictions e).2.resolved_contradictions.drop
          e.resolved_contradictions.length).Perm
        (e.active_contradictions.map bumpAttempts)) ∧
    ((update_belief_network (update_belief_network {} "A" 1 1).2
        "B" (-1) 1).1 = 1 ∧
     (resolve_active_contradictions
        (update_belief_network (update_belief_network {} "A" 1 1).2
          "B" (-1) 1).2).1.entropy_cost = 1/2 ∧
     (resolve_active_contradictions
        (update_belief_network (update_belief_network {} "A" 1 1).2
          "B" (-1) 1).2).1.contradictions_resolved = 1 ∧
     (resolve_active_contradictions
        (update_belief_network (update_belief_network {} "A" 1 1).2
          "B" (-1) 1).2).2.active_contradictions = []) := by
  have hgen : ∀ e : Engine,
      (resolve_active_contradictions e).2.active_contradictions = [] ∧
      (resolve_active_contradictions e).2.resolved_contradictions.length =
        e.resolved_contradictions.length +
          e.active_contradictions.length ∧
      (resolve_active_contradictions e).1.contradictions_resolved =
        e.active_contradictions.length ∧
      (resolve_active_contradictions e).1.entropy_cost =
        (e.active_contradictions.map
          (fun c => severityCost c.severity)).sum ∧
      ((resolve_active_contradictions e).2.resolved_contradictions.drop
          e.resolved_contradictions.length).Perm
        (e.active_contradictions.map bumpAttempts) := by
    intro e
    have hperm : (e.active_contradictions.mergeSort
        (fun a b => decide (b.severity.value ≤ a.severity.value))).Perm
        e.active_contradictions :=
      List.mergeSort_perm e.active_contradictions _
    refine ⟨rfl, ?_, ?_, ?_, ?_⟩
    · simp [resolve_active_contradictions, resolveLoop_spec,
        hperm.length_eq]
    · simp [resolve_active_contradictions, resolveLoop_spec,
        hperm.length_eq]
    · simp only [resolve_active_contradictions, resolveLoop_spec]
      exact (zero_add _).trans
        ((hperm.map (fun c => severityCost c.severity)).sum_eq)
    · simp only [resolve_active_contradictions, resolveLoop_spec,
        List.drop_left]
      exact hperm.map bumpAttempts
  have ha : (update_belief_network (update_belief_network {} "A" 1 1).2
      "B" (-1) 1).2.active_contradictions =
      [⟨"A", "B", 1, -1, ContradictionSeverity.HARD, 0, "", 0⟩] := rfl
  refine ⟨hgen, rfl, ?_, ?_, (hgen _).1⟩
  · rw [(hgen _).2.2.2.1, ha]
    norm_num [severityCost]
  · rw [(hgen _).2.2.1, ha]
    rfl

/-- C7: the coherence score is 1 on an empty belief network; on a
non-empty network it is the mean of the absolute belief values plus 0.05
per resolved contradiction minus 0.1 per active contradiction, clamped
into [0, 1]; and it always lies in [0, 1]. -/
theorem c7_coherence (e : Engine) :
    (e.belief_network = [] → system_coherence_score e = 1) ∧
    (e.belief_network ≠ [] → system_coherence_score e =
      max 0 (min 1
        (((e.belief_network.map (fun p => (|p.2| : ℚ))).sum /
            e.belief_network.length) +
          e.resolved_contradictions.length * (1/20) -
          e.active_contradictions.length * (1/10)))) ∧
    0 ≤ system_coherence_score e ∧ system_coherence_score e ≤ 1 := by
  refine ⟨?_, ?_, ?_, ?_⟩
  · intro h; simp [system_coherence_score, h]
  · intro h
    simp only [system_coherence_score, if_neg h]
    rw [if_neg (by simpa using h)]
    simp [List.map_map, Function.comp_def, sub_eq_add_neg, add_assoc,
      add_comm, add_left_comm]
  · by_cases h : e.belief_network = []
    · simp [system_coherence_score, h]
    · simp only [system_coherence_score, if_neg h]
      exact le_max_left 0 _
  · by_cases h : e.belief_network = []
    · simp [system_coherence_score, h]
    · simp only [system_coherence_score, if_neg h]
      exact max_le (by norm_num) (min_le_left 1 _)

/-- Witness for C7: both branch hypotheses discharged at concrete
engines. -/
theorem c7_coherence_witness :
    system_coherence_score {} = 1 ∧
    system_coherence_score (update_belief_network {} "A" 1 1).2 = 1 := by
  constructor
  · exact (c7_coherence {}).1 rfl
  · have h := (c7_coherence (update_belief_network {} "A" 1 1).2).2.1
      (by decide)
    have hb : (update_belief_network {} "A" 1 1).2.belief_network =
        [("A", 1)] := rfl
    have hr : (update_belief_network {} "A" 1 1).2.resolved_contradictions =
        [] := rfl
    have hac : (update_belief_network {} "A" 1 1).2.active_contradictions =
        [] := rfl
    rw [h, hb, hr, hac]
    norm_num

/-- C8: the phi contribution is 0 with no reasoning steps; otherwise it is
the sum of recorded step uncertainties divided by (number of steps + 1) —
the damped average, not the plain mean. -/
theorem c8_phi (c : LucidiaTrinaryCortex) :
    (c.reasoning_history = [] →
      c.consciousness_phi_contribution = 0) ∧
    (c.reasoning_history ≠ [] →
      c.consciousness_phi_contribution =
        (c.reasoning_history.map (fun s => s.uncertainty)).sum /
          (c.reasoning_history.length + 1)) := by
  constructor
  · intro h
    simp [LucidiaTrinaryCortex.consciousness_phi_contribution, h]
  · intro h
    simp [LucidiaTrinaryCortex.consciousness_phi_contribution, h]

/-- Witness for C8: an empty history yields 0, and a one-step history of
uncertainty 1 yields 1/2 (the plain mean would be 1). -/
theorem c8_phi_witness :
    ({} : LucidiaTrinaryCortex).consciousness_phi_contribution = 0 ∧
    ({ reasoning_history := [⟨[0, 0], ["AND"], 0, 1⟩] } :
        LucidiaTrinaryCortex).consciousness_phi_contribution = 1/2 := by
  constructor
  · exact (c8_phi {}).1 rfl
  · have h := (c8_phi
      { reasoning_history := [⟨[0, 0], ["AND"], 0, 1⟩] }).2 (by decide)
    rw [h]; norm_num

end Lucidia
